import Mathlib

/-!
Verification of the ScreenScraper scraping engine
(`src/resources/lib/scraper.py` of script.ael.screenscraper).

The development shallowly embeds the parts of the engine that the checked
properties concern:

* a strict JSON decoder standing for Python's `json.loads`, together with the
  two textual repair passes of `ScreenScraper._retrieve_URL_as_JSON`
  (scraper.py lines 1005-1047);
* the HTTP status classification and bounded 429-retry loop of
  `_retrieve_URL_as_JSON` (lines 966-1003);
* the candidate search `_search_candidates_jeuInfos` and its caller
  `get_candidates` (lines 318-347 and 528-634);
* the metadata field resolvers `_parse_meta_*` (lines 682-756) over a typed
  view of the cached `jeu` record;
* the asset extraction `_retrieve_all_assets` (lines 779-821);
* the URL redaction `_clean_URL_for_log` (lines 867-893).

External collaborators (the `ael` base `Scraper` class, `kodi`, `net`, `io`,
`settings`) are not part of this repository; where one of them decides a
behaviour it is modelled from the spec and marked as such in its doc comment.
Machine effects that no claim touches (actual sleeping, file dumps, the disk
cache engine, request-URL percent-encoding) are noted where they are elided.
-/

/-! ## JSON values and a strict decoder (model of Python `json.loads`) -/

/-- A decoded JSON value.  Numeric literals are kept as their source lexeme:
no claim depends on numeric value semantics, and this keeps the model exact
about which texts decode. -/
inductive JValue where
  | null
  | bool (b : Bool)
  | num (lexeme : String)
  | str (s : String)
  | arr (elems : List JValue)
  | obj (members : List (String × JValue))

/-- Numeric value of one hex digit, `none` on a non-hex character. -/
def hexVal (c : Char) : Option Nat :=
  if '0' ≤ c ∧ c ≤ '9' then some (c.toNat - 48)
  else if 'a' ≤ c ∧ c ≤ 'f' then some (c.toNat - 87)
  else if 'A' ≤ c ∧ c ≤ 'F' then some (c.toNat - 55)
  else none

/-- Single-character JSON string escapes. -/
def escChar (c : Char) : Option Char :=
  if c = '\"' then some '\"'
  else if c = '\\' then some '\\'
  else if c = '/' then some '/'
  else if c = 'b' then some (Char.ofNat 8)
  else if c = 'f' then some (Char.ofNat 12)
  else if c = 'n' then some '\n'
  else if c = 'r' then some '\r'
  else if c = 't' then some '\t'
  else none

/-- Parse the body of a JSON string (opening quote already consumed), up to and
including the closing quote.  Strict mode: raw control characters are
rejected, as Python's `json.loads` does by default. -/
def parseStrChars : List Char → Option (List Char × List Char)
  | [] => none
  | '\"' :: rest => some ([], rest)
  | '\\' :: 'u' :: h1 :: h2 :: h3 :: h4 :: rest => do
      let a ← hexVal h1
      let b ← hexVal h2
      let c ← hexVal h3
      let d ← hexVal h4
      let (cs, r) ← parseStrChars rest
      pure (Char.ofNat (((a * 16 + b) * 16 + c) * 16 + d) :: cs, r)
  | '\\' :: e :: rest => do
      let c ← escChar e
      let (cs, r) ← parseStrChars rest
      pure (c :: cs, r)
  | c :: rest =>
      if c.toNat < 32 then none
      else do
        let (cs, r) ← parseStrChars rest
        pure (c :: cs, r)

/-- Take a maximal run of decimal digits. -/
def takeDigits : List Char → (List Char × List Char)
  | [] => ([], [])
  | c :: rest =>
      if c.isDigit then
        let (ds, r) := takeDigits rest
        (c :: ds, r)
      else ([], c :: rest)

/-- Integer part of a JSON number: `0`, or a nonzero digit followed by digits
(leading zeros are rejected, as in strict JSON). -/
def parseIntPart : List Char → Option (List Char × List Char)
  | [] => none
  | c :: rest =>
      if c = '0' then some ([c], rest)
      else if c.isDigit then
        let (ds, r) := takeDigits rest
        some (c :: ds, r)
      else none

/-- Optional fraction part `. digits`. -/
def parseFracPart (s : List Char) : Option (List Char × List Char) :=
  match s with
  | '.' :: rest =>
      match takeDigits rest with
      | ([], _) => none
      | (ds, r) => some ('.' :: ds, r)
  | _ => some ([], s)

/-- Optional exponent part `(e|E) (+|-)? digits`. -/
def parseExpPart (s : List Char) : Option (List Char × List Char) :=
  match s with
  | c :: rest =>
      if c = 'e' ∨ c = 'E' then
        match rest with
        | sgn :: rest2 =>
            if sgn = '+' ∨ sgn = '-' then
              match takeDigits rest2 with
              | ([], _) => none
              | (ds, r) => some (c :: sgn :: ds, r)
            else
              match takeDigits rest with
              | ([], _) => none
              | (ds, r) => some (c :: ds, r)
        | [] => none
      else some ([], s)
  | [] => some ([], s)

/-- A JSON number lexeme `-? int frac? exp?`; returns the lexeme and rest. -/
def parseNum (s : List Char) : Option (List Char × List Char) := do
  let (sgn, s1) :=
    match s with
    | '-' :: r => (['-'], r)
    | _ => (([] : List Char), s)
  let (ip, s2) ← parseIntPart s1
  let (fp, s3) ← parseFracPart s2
  let (ep, s4) ← parseExpPart s3
  pure (sgn ++ ip ++ fp ++ ep, s4)

/-- Skip JSON insignificant whitespace. -/
def skipWs : List Char → List Char
  | [] => []
  | c :: rest =>
      if c = ' ' ∨ c = '\t' ∨ c = '\n' ∨ c = '\r' then skipWs rest
      else c :: rest

mutual

/-- Recursive-descent JSON value parser.  The fuel argument only bounds the
nesting-driven recursion; `loads` supplies enough fuel for any input. -/
def parseVal : Nat → List Char → Option (JValue × List Char)
  | 0, _ => none
  | Nat.succ f, s =>
    match skipWs s with
    | '\x7b' :: rest =>
      match skipWs rest with
      | '\x7d' :: r2 => some (JValue.obj [], r2)
      | r2 => (parseMembers f r2).map (fun p => (JValue.obj p.1, p.2))
    | '[' :: rest =>
      match skipWs rest with
      | ']' :: r2 => some (JValue.arr [], r2)
      | r2 => (parseElems f r2).map (fun p => (JValue.arr p.1, p.2))
    | '\"' :: rest => (parseStrChars rest).map (fun p => (JValue.str (String.mk p.1), p.2))
    | 't' :: 'r' :: 'u' :: 'e' :: rest => some (JValue.bool true, rest)
    | 'f' :: 'a' :: 'l' :: 's' :: 'e' :: rest => some (JValue.bool false, rest)
    | 'n' :: 'u' :: 'l' :: 'l' :: rest => some (JValue.null, rest)
    | s2 => (parseNum s2).map (fun p => (JValue.num (String.mk p.1), p.2))

/-- Members of a nonempty JSON object, consuming the closing brace.  A comma
must be followed by another member: a trailing comma before the closing brace
is a parse error, exactly the strictness at issue in the repair logic. -/
def parseMembers : Nat → List Char → Option (List (String × JValue) × List Char)
  | 0, _ => none
  | Nat.succ f, s =>
    match skipWs s with
    | '\"' :: rest => do
      let (key, r1) ← parseStrChars rest
      match skipWs r1 with
      | ':' :: r2 => do
        let (v, r3) ← parseVal f r2
        match skipWs r3 with
        | ',' :: r4 => do
          let (ms, r5) ← parseMembers f r4
          pure ((String.mk key, v) :: ms, r5)
        | '\x7d' :: r4 => pure ([(String.mk key, v)], r4)
        | _ => none
      | _ => none
    | _ => none

/-- Elements of a nonempty JSON array, consuming the closing bracket. -/
def parseElems : Nat → List Char → Option (List JValue × List Char)
  | 0, _ => none
  | Nat.succ f, s => do
    let (v, r1) ← parseVal f s
    match skipWs r1 with
    | ',' :: r2 => do
      let (es, r3) ← parseElems f r2
      pure (v :: es, r3)
    | ']' :: r2 => pure ([v], r2)
    | _ => none

end

/-- Model of Python `json.loads`: parse one JSON value and require only
whitespace after it.  `2 * length + 2` fuel over-approximates the recursion
depth, which grows by at most two frames per consumed character. -/
def loads (s : String) : Option JValue :=
  match parseVal (2 * s.data.length + 2) s.data with
  | some (v, rest) =>
    match skipWs rest with
    | [] => some v
    | _ => none
  | none => none

/-! ## Python `str.replace` and the two JSON repair passes -/

/-- Whether `pat` occurs as a contiguous run somewhere in `s`. -/
def hasOccur (pat : List Char) : List Char → Bool
  | [] => pat.isEmpty
  | c :: rest => pat.isPrefixOf (c :: rest) || hasOccur pat rest

/-- Fueled left-to-right replace-all, the semantics of Python `str.replace`
for a nonempty pattern: scan left to right, replace each non-overlapping
occurrence, continue after the replacement.  The invariant `s.length ≤ fuel`
makes the fuel-exhausted branch unreachable. -/
def replaceAllF (pat rep : List Char) : Nat → List Char → List Char
  | 0, s => s
  | Nat.succ f, s =>
    match s with
    | [] => []
    | c :: rest =>
      if pat.isPrefixOf (c :: rest) then
        rep ++ replaceAllF pat rep f ((c :: rest).drop pat.length)
      else
        c :: replaceAllF pat rep f rest

/-- Python `str.replace` on character lists (nonempty pattern; the engine only
replaces the two fixed multi-character repair patterns). -/
def replaceAll (s pat rep : List Char) : List Char :=
  if pat.isEmpty then s else replaceAllF pat rep s.length s

/-- Python `page_data_raw.replace(old, new)` on strings. -/
def pyReplace (s pat rep : String) : String :=
  String.mk (replaceAll s.data pat.data rep.data)

/-- First repair pass of `_retrieve_URL_as_JSON` (scraper.py line 1020):
`page_data_raw.replace('],\n\t\t}', ']\n\t\t}')`. -/
def repair1 (s : String) : String :=
  pyReplace s "],\n\t\t\x7d" "]\n\t\t\x7d"

/-- Second repair pass (scraper.py line 1032), applied to the original raw
body again: `page_data_raw.replace('\t\t},\n\t\t}', '\t\t}\n\t\t}')`. -/
def repair2 (s : String) : String :=
  pyReplace s "\t\t\x7d,\n\t\t\x7d" "\t\t\x7d\n\t\t\x7d"

/-- The decode-with-repair pipeline of `_retrieve_URL_as_JSON` (scraper.py
lines 1005-1047): try `json.loads` on the raw body, then on the body after
the first repair, then on the body after the second repair; `none` when all
three attempts fail (the Python code then dumps diagnostics and marks the
error, modelled at the call site). -/
def loadsWithRepair (s : String) : Option JValue :=
  match loads s with
  | some v => some v
  | none =>
    match loads (repair1 s) with
    | some v => some v
    | none => loads (repair2 s)

/-! ## Status descriptor and the resilient fetcher `_retrieve_URL_as_JSON` -/

/-- Modelled from the spec (section 6): the shared mutable result descriptor
`status_dic` created by `kodi.new_status_dic` carries a success flag, a
user-facing message and an optional structured dialog hint.  The `kodi`
module is an external collaborator, not part of this repository. -/
structure StatusDic where
  status : Bool
  msg : Option String
  dialog : Option String
deriving DecidableEq, Repr

/-- Modelled from the spec (sections 6 and 7): the base `Scraper` class's
`_handle_error` reports a failure through the shared descriptor instead of
raising, by clearing the success flag and setting the message.  The base
class lives in the external `ael` package. -/
def handle_error (st : StatusDic) (m : String) : StatusDic :=
  { st with status := false, msg := some m }

/-- One outcome of `net.get_URL`: the HTTP status code and the raw body
(`none` models a transport-level exception swallowed by `net.get_URL`,
which returns a `None` body). -/
structure HttpResponse where
  code : Nat
  body : Option String

/-- Observable outcome of one `_retrieve_URL_as_JSON` call: the decoded JSON
(or `none`), the status descriptor as left by the call, the sequence of
429-backoff waits performed (in seconds, in order), and the number of HTTP
requests issued. -/
structure FetchResult where
  data : Option JValue
  st : StatusDic
  waits : List Nat
  calls : Nat

/-- The non-retrying arm of the status classification in
`_retrieve_URL_as_JSON` (scraper.py lines 971-1047): 400 is an error; 404 is
a non-error empty result; any other non-200 code (including a 429 once the
retry threshold is exhausted) is an error; on 200 a `None` body is a network
error and otherwise the body goes through decode-with-repair. -/
def classifyNoRetry (r : HttpResponse) (st : StatusDic) : FetchResult :=
  if r.code = 400 then
    ⟨none, handle_error st ("Bad HTTP status code " ++ toString r.code), [], 1⟩
  else if r.code = 404 then
    ⟨none, st, [], 1⟩
  else if r.code ≠ 200 then
    ⟨none, handle_error st ("Bad HTTP status code " ++ toString r.code), [], 1⟩
  else
    match r.body with
    | none => ⟨none, handle_error st "Network error/exception in net_get_URL()", [], 1⟩
    | some raw =>
      match loadsWithRepair raw with
      | some j => ⟨some j, st, [], 1⟩
      | none =>
        ⟨none,
         handle_error st "Error decoding JSON data from ScreenScraper (fixed version).",
         [], 1⟩

/-- The retry loop of `_retrieve_URL_as_JSON`.  `resp k` is the response to
the k-th HTTP request of this call chain (the request URL itself decides the
response only through the live server, so the response stream is an input).
`fuel` equals `RETRY_THRESHOLD - retry`, so `0 < fuel` is exactly the
source's guard `retry < Scraper.RETRY_THRESHOLD`; on a 429 within the bound
the code sleeps `120 * (retry + 1)` seconds and re-issues the request with
`retry + 1`.  400 and 429 are distinct codes, so checking the 429 arm first
preserves the source's `elif` chain semantics. -/
def retrieveAux (resp : Nat → HttpResponse) : Nat → Nat → Nat → StatusDic → FetchResult
  | 0, k, _, st => classifyNoRetry (resp k) st
  | Nat.succ f, k, retry, st =>
    let r := resp k
    if r.code = 429 then
      let w := 120 * (retry + 1)
      let out := retrieveAux resp f (k + 1) (retry + 1) st
      ⟨out.data, out.st, w :: out.waits, out.calls + 1⟩
    else classifyNoRetry r st

/-- Embeds `ScreenScraper._retrieve_URL_as_JSON(url, status_dic, retry)` (scraper.py
lines 966-1047).  `thr` stands for `Scraper.RETRY_THRESHOLD`, a fixed
constant of the external `ael` base class (modelled from the spec as an
arbitrary fixed bound and therefore kept as a parameter); `k` is the index of
the next HTTP request in the scripted response stream.  The per-call
rate-limiter wait (`_wait_for_API_request(2000)`) and the `last_http_call`
timestamp update are real-time effects no claim touches and are elided. -/
def retrieve_URL_as_JSON (thr : Nat) (resp : Nat → HttpResponse) (k : Nat)
    (st : StatusDic) (retry : Nat) : FetchResult :=
  retrieveAux resp (thr - retry) k retry st

/-! ## Candidate search: `_search_candidates_jeuInfos` and `get_candidates`

Python dictionary/list accesses on the decoded response are partial; an
access that would raise (`KeyError`, `IndexError`, `TypeError`) is modelled
by `none`, and an uncaught exception makes the whole operation's result
`none` at the outer `Option` layer. -/

/-- Python `d[k]` on a decoded JSON object; `none` models the raised exception on a
missing key or a non-object. -/
def jget (j : JValue) (k : String) : Option JValue :=
  match j with
  | JValue.obj ms => ms.lookup k
  | _ => none

/-- View a decoded value as a list; `none` models the `TypeError` of using a
non-sequence where the source iterates or indexes. -/
def jarr : JValue → Option (List JValue)
  | JValue.arr l => some l
  | _ => none

/-- View a decoded value as a string. -/
def jstr : JValue → Option String
  | JValue.str s => some s
  | _ => none

/-- Python `len(x)` on a decoded value (defined for sequences, mappings, strings;
`none` models the `TypeError` on other values). -/
def jlen : JValue → Option Nat
  | JValue.arr l => some l.length
  | JValue.obj ms => some ms.length
  | JValue.str s => some s.length
  | _ => none

/-- Python `str(x)` for the scalar JSON values this engine feeds it (the
game id is a scalar in the provider schema).  The rendering of containers is
a placeholder: no claim inspects the rendered id. -/
def pyStr : JValue → String
  | JValue.null => "None"
  | JValue.bool true => "True"
  | JValue.bool false => "False"
  | JValue.num lex => lex
  | JValue.str s => s
  | JValue.arr _ => "[...]"
  | JValue.obj _ => "\x7b...\x7d"

/-- Replace the binding of `k` (or append it) in an association list:
Python's `d[k] = v`. -/
def setAssoc (k : String) (v : JValue) : List (String × JValue) → List (String × JValue)
  | [] => [(k, v)]
  | (k', v') :: rest =>
      if k' = k then (k, v) :: rest else (k', v') :: setAssoc k v rest

/-- Python `jeu_dic['roms'] = []` (scraper.py line 631), the size-trimming applied
before the record enters the internal cache. -/
def jsetRomsEmpty (j : JValue) : JValue :=
  match j with
  | JValue.obj ms => JValue.obj (setAssoc "roms" (JValue.arr []) ms)
  | other => other

/-- The candidate dictionary built by `_search_candidates_jeuInfos` (the base
class's `_new_candidate_dic` supplies defaults that are all overwritten
here). -/
structure Candidate where
  id : String
  display_name : String
  platform : String
  scraper_platform : Nat
  order : Nat
deriving DecidableEq, Repr

/-- Checksum record produced by `_get_SS_checksum` (external file IO over the
`io` module; spec section 3 `ChecksumRecord`). -/
structure Checksums where
  crc : String
  md5 : String
  sha1 : String
  size : Nat
  rom_name : String
deriving DecidableEq, Repr

/-- Stand-in for the external `io.FileName`; only its identity (present or
`None`) matters to the modelled control flow. -/
structure FileName where
  path : String
deriving DecidableEq, Repr

/-- Observable outcome of `_search_candidates_jeuInfos` / `get_candidates`:
the returned candidate list (`none` models Python `None`), the status
descriptor, the number of HTTP requests issued, and the trimmed record
written to the internal cache (if any). -/
structure SearchResult where
  candidates : Option (List Candidate)
  st : StatusDic
  calls : Nat
  cacheWrite : Option JValue

/-- Extraction of the single game record from the decoded `jeuInfos.php`
response (scraper.py lines 608-613): `json_data['response']['jeu']`, then
`str(jeu_dic['id'])`, `jeu_dic['noms'][0]['text']`, and the lengths of
`jeu_dic['roms']` and `jeu_dic['medias']` taken for logging.  Any failing
access raises, which surfaces as `none`. -/
def extractJeu (j : JValue) : Option (JValue × String × String) := do
  let respObj ← jget j "response"
  let jeu ← jget respObj "jeu"
  let idv ← jget jeu "id"
  let noms ← jget jeu "noms" >>= jarr
  let n0 ← noms.head?
  let title ← jget n0 "text" >>= jstr
  let _ ← jget jeu "roms" >>= jlen
  let _ ← jget jeu "medias" >>= jlen
  pure (jeu, pyStr idv, title)

/-- Embeds `ScreenScraper._search_candidates_jeuInfos` (scraper.py lines 528-634).
`checksums` is the result of `_get_SS_checksum` (file IO over the external
`io` module, so its outcome is an input; `debug_checksums_flag` is taken as
false).  The request URL built at lines 595-598 (rom-type hint, platform id,
checksums, percent-encoded name, size) only influences the behaviour through
the live server's response, so it is represented by the scripted response
stream `resp`; the outer `Option` is `none` when an uncaught exception
escapes. -/
def search_candidates_jeuInfos (thr : Nat) (resp : Nat → HttpResponse)
    (rom_FN rom_checksums_FN : Option FileName) (checksums : Option Checksums)
    (platform : String) (scraper_platform : Nat) (st : StatusDic) :
    Option SearchResult :=
  match rom_FN, rom_checksums_FN with
  | some _, some _ =>
    match checksums with
    | none =>
      some ⟨none, { st with status := false, msg := some "Error computing file checksums." },
            0, none⟩
    | some _ =>
      let fr := retrieve_URL_as_JSON thr resp 0 st 0
      if fr.st.status = false then some ⟨none, fr.st, fr.calls, none⟩
      else
        match fr.data with
        | none => some ⟨some [], fr.st, fr.calls, none⟩
        | some j =>
          match extractJeu j with
          | none => none
          | some (jeu, idStr, title) =>
            some ⟨some [{ id := idStr, display_name := title, platform := platform,
                          scraper_platform := scraper_platform, order := 1 }],
                  fr.st, fr.calls, some (jsetRomsEmpty jeu)⟩
  | _, _ => some ⟨none, st, 0, none⟩

/-- The scraper attributes involved in session deactivation:
`ssid`/`sspassword` come from settings; `scraper_disabled` is initialised to
false by the external `ael` base `Scraper` class (modelled from the spec's
session model; nothing in this repository ever sets it); `scraper_deactivated`
is the attribute `check_before_scraping` sets. -/
structure ScraperState where
  ssid : String
  sspassword : String
  scraper_disabled : Bool
  scraper_deactivated : Bool
deriving DecidableEq, Repr

/-- Embeds `ScreenScraper.check_before_scraping` (scraper.py lines 297-310): with a
user name and password configured it does nothing; otherwise it sets
`self.scraper_deactivated = True` and marks a configuration error (message
text abbreviated) in the status descriptor. -/
def check_before_scraping (s : ScraperState) (st : StatusDic) : ScraperState × StatusDic :=
  if s.ssid ≠ "" ∧ s.sspassword ≠ "" then (s, st)
  else
    ({ s with scraper_deactivated := true },
     { status := false,
       msg := some "AEL requires your ScreenScraper user name and password.",
       dialog := some "KODI_MESSAGE_DIALOG" })

/-- Embeds `ScreenScraper.get_candidates` (scraper.py lines 318-347).  If
`self.scraper_disabled` it returns `None` silently; otherwise it evaluates
`rom_FN.getBase()` before any guard — a `None` `rom_FN` therefore raises
`AttributeError` (outer `none`) — guards `rom_checksums_FN` with a
conditional, converts the platform (external `platforms` table, so the
ScreenScraper platform id is an input), delegates to
`_search_candidates_jeuInfos`, and returns `None` when the descriptor marks
an error. -/
def get_candidates (scraper_disabled : Bool) (thr : Nat) (resp : Nat → HttpResponse)
    (rom_FN rom_checksums_FN : Option FileName) (checksums : Option Checksums)
    (platform : String) (scraper_platform : Nat) (st : StatusDic) :
    Option SearchResult :=
  if scraper_disabled then some ⟨none, st, 0, none⟩
  else
    match rom_FN with
    | none => none
    | some fn =>
      match search_candidates_jeuInfos thr resp (some fn) rom_checksums_FN checksums
          platform scraper_platform st with
      | none => none
      | some r =>
        if r.st.status = false then some ⟨none, r.st, r.calls, r.cacheWrite⟩
        else some r

/-! ## The cached record and the metadata field resolvers

`get_metadata`/`get_assets` read the cached `jeu` dictionary; for the field
resolver claims it is presented as a typed view.  Every dictionary key the
source may find absent is an `Option` field; `n['region']`-style accesses on
entries raise `KeyError`, which the `except KeyError` of each `_parse_meta_*`
turns into the default, and this exception flow is modelled explicitly with
`Except`. -/

/-- One entry of a region-partitioned field (`noms`, `dates`):
`{region, text}`. -/
structure RegionEntry where
  region : Option String
  text : Option String
deriving DecidableEq, Repr

/-- One entry of a language-partitioned field (`synopsis`, genre `noms`):
`{langue, text}`. -/
structure LangEntry where
  langue : Option String
  text : Option String
deriving DecidableEq, Repr

/-- One item of `jeu_dic['genres']`. -/
structure GenreItem where
  noms : Option (List LangEntry)
deriving DecidableEq, Repr

/-- A `{text: ...}` sub-dictionary (`developpeur`, `joueurs`). -/
structure TextDic where
  text : Option String
deriving DecidableEq, Repr

/-- One entry of `jeu_dic['medias']`.  The source tests `'region' in
media_dic` before reading it, but reads `type`, `url` and `format`
unguarded. -/
structure MediaDic where
  type : Option String
  region : Option String
  url : Option String
  format : Option String
deriving DecidableEq, Repr

/-- Typed view of the cached `jeu` record (spec section 3 `CachedRecord`)
restricted to the fields the engine reads.  `id` holds the game id as the
string it renders to. -/
structure JeuDic where
  id : Option String
  noms : Option (List RegionEntry)
  dates : Option (List RegionEntry)
  genres : Option (List GenreItem)
  developpeur : Option TextDic
  joueurs : Option TextDic
  synopsis : Option (List LangEntry)
  medias : Option (List MediaDic)
deriving DecidableEq, Repr

/-- Embeds `ScreenScraper.region_list` (scraper.py lines 164-205): the fixed region
fallback chain, searched front to back. -/
def region_list : List String :=
  ["wor", "eu", "us", "jp", "ss", "ame", "asi", "au", "bg", "br",
   "ca", "cl", "cn", "cus", "cz", "de", "dk", "fi", "fr", "gr",
   "hu", "il", "it", "kr", "kw", "mor", "nl", "no", "nz", "oce",
   "pe", "pl", "pt", "ru", "se", "sk", "sp", "tr", "tw", "uk"]

/-- Embeds `ScreenScraper.language_list` (scraper.py lines 208-229): the fixed
language fallback chain. -/
def language_list : List String :=
  ["en", "es", "ja", "cz", "da", "de", "fi", "fr", "hu", "it",
   "ko", "nl", "no", "pl", "pt", "ru", "sk", "sv", "tr", "zh"]

/-- Modelled from the spec (section 3 `MetadataRecord`): each metadata field
has a defined default constant in the external `ael.constants` module.  The
values are opaque to this repository; distinct placeholder strings stand for
them, and only their identity is ever used. -/
def DEFAULT_META_TITLE : String := "[default title]"

/-- Modelled from the spec: default constant for the year field. -/
def DEFAULT_META_YEAR : String := "[default year]"

/-- Modelled from the spec: default constant for the genre field. -/
def DEFAULT_META_GENRE : String := "[default genre]"

/-- Modelled from the spec: default constant for the developer field. -/
def DEFAULT_META_DEVELOPER : String := "[default developer]"

/-- Modelled from the spec: default constant for the player-count field. -/
def DEFAULT_META_NPLAYERS : String := "[default nplayers]"

/-- Modelled from the spec: default constant for the content-rating field. -/
def DEFAULT_META_ESRB : String := "[default esrb]"

/-- Modelled from the spec: default constant for the plot field. -/
def DEFAULT_META_PLOT : String := "[default plot]"

/-- The inner loop `for n in entries: if n['region'] == target: return
n['text']` over a region-partitioned list.  `Except.error ()` is the
`KeyError` raised by `n['region']` (on every visited entry) or `n['text']`
(on the matching entry); `Except.ok (some t)` is the early return;
`Except.ok none` means the loop fell through. -/
def findRegionText (target : String) : List RegionEntry → Except Unit (Option String)
  | [] => Except.ok none
  | n :: rest =>
    match n.region with
    | none => Except.error ()
    | some r =>
      if r = target then
        match n.text with
        | none => Except.error ()
        | some t => Except.ok (some t)
      else findRegionText target rest

/-- The fallback double loop `for region in chain: for n in entries: ...`
over a region-partitioned list. -/
def chainRegionText (chain : List String) (es : List RegionEntry) :
    Except Unit (Option String) :=
  match chain with
  | [] => Except.ok none
  | r :: rs =>
    match findRegionText r es with
    | Except.error () => Except.error ()
    | Except.ok (some t) => Except.ok (some t)
    | Except.ok none => chainRegionText rs es

/-- Same inner loop for language-partitioned lists (`n['langue']`). -/
def findLangText (target : String) : List LangEntry → Except Unit (Option String)
  | [] => Except.ok none
  | n :: rest =>
    match n.langue with
    | none => Except.error ()
    | some l =>
      if l = target then
        match n.text with
        | none => Except.error ()
        | some t => Except.ok (some t)
      else findLangText target rest

/-- Same fallback double loop for language-partitioned lists. -/
def chainLangText (chain : List String) (es : List LangEntry) :
    Except Unit (Option String) :=
  match chain with
  | [] => Except.ok none
  | l :: ls =>
    match findLangText l es with
    | Except.error () => Except.error ()
    | Except.ok (some t) => Except.ok (some t)
    | Except.ok none => chainLangText ls es

/-- Embeds `ScreenScraper._parse_meta_title` (scraper.py lines 682-694): preferred
region first, then the fixed region chain; `KeyError` anywhere (missing
`noms`, missing `region`/`text` on a visited entry) yields the default. -/
def parse_meta_title (user_region : String) (jeu : JeuDic) : String :=
  match jeu.noms with
  | none => DEFAULT_META_TITLE
  | some noms =>
    match findRegionText user_region noms with
    | Except.error () => DEFAULT_META_TITLE
    | Except.ok (some t) => t
    | Except.ok none =>
      match chainRegionText region_list noms with
      | Except.error () => DEFAULT_META_TITLE
      | Except.ok (some t) => t
      | Except.ok none => DEFAULT_META_TITLE

/-- Embeds `ScreenScraper._parse_meta_year` (scraper.py lines 696-706): the same
resolution over `dates`, but each early return slices the text to its first
four characters (`n['text'][0:4]`); the default is returned unsliced. -/
def parse_meta_year (user_region : String) (jeu : JeuDic) : String :=
  match jeu.dates with
  | none => DEFAULT_META_YEAR
  | some dates =>
    match findRegionText user_region dates with
    | Except.error () => DEFAULT_META_YEAR
    | Except.ok (some t) => t.take 4
    | Except.ok none =>
      match chainRegionText region_list dates with
      | Except.error () => DEFAULT_META_YEAR
      | Except.ok (some t) => t.take 4
      | Except.ok none => DEFAULT_META_YEAR

/-- Embeds `ScreenScraper._parse_meta_genre` (scraper.py lines 709-720): the first
genre item only (`jeu_dic['genres'][0]`), resolved over its `noms` by
language.  A missing `genres` key raises `KeyError` (caught, default), but an
empty `genres` list raises `IndexError`, which the `except KeyError` clause
does NOT catch: `none` models that uncaught exception. -/
def parse_meta_genre (user_language : String) (jeu : JeuDic) : Option String :=
  match jeu.genres with
  | none => some DEFAULT_META_GENRE
  | some [] => none
  | some (g :: _) =>
    match g.noms with
    | none => some DEFAULT_META_GENRE
    | some noms =>
      some (match findLangText user_language noms with
        | Except.error () => DEFAULT_META_GENRE
        | Except.ok (some t) => t
        | Except.ok none =>
          match chainLangText language_list noms with
          | Except.error () => DEFAULT_META_GENRE
          | Except.ok (some t) => t
          | Except.ok none => DEFAULT_META_GENRE)

/-- Embeds `ScreenScraper._parse_meta_developer` (scraper.py lines 722-728):
`jeu_dic['developpeur']['text']`, default on `KeyError`. -/
def parse_meta_developer (jeu : JeuDic) : String :=
  match jeu.developpeur with
  | none => DEFAULT_META_DEVELOPER
  | some d =>
    match d.text with
    | none => DEFAULT_META_DEVELOPER
    | some t => t

/-- Embeds `ScreenScraper._parse_meta_nplayers` (scraper.py lines 730-737):
`jeu_dic['joueurs']['text']` passed through unmodified, default on
`KeyError`. -/
def parse_meta_nplayers (jeu : JeuDic) : String :=
  match jeu.joueurs with
  | none => DEFAULT_META_NPLAYERS
  | some j =>
    match j.text with
    | none => DEFAULT_META_NPLAYERS
    | some t => t

/-- Embeds `ScreenScraper._parse_meta_esrb` (scraper.py lines 740-744): always the
default. -/
def parse_meta_esrb (_ : JeuDic) : String := DEFAULT_META_ESRB

/-- Embeds `ScreenScraper._parse_meta_plot` (scraper.py lines 746-756): preferred
language first, then the fixed language chain, over `synopsis`. -/
def parse_meta_plot (user_language : String) (jeu : JeuDic) : String :=
  match jeu.synopsis with
  | none => DEFAULT_META_PLOT
  | some syn =>
    match findLangText user_language syn with
    | Except.error () => DEFAULT_META_PLOT
    | Except.ok (some t) => t
    | Except.ok none =>
      match chainLangText language_list syn with
      | Except.error () => DEFAULT_META_PLOT
      | Except.ok (some t) => t
      | Except.ok none => DEFAULT_META_PLOT

/-! ## Asset extraction and the public cached-record operations -/

/-- Modelled from the spec (section 3 `AssetRecord.kind`): the engine's
normalized asset kinds.  The concrete `constants.ASSET_*_ID` values live in
the external `ael.constants` module; only their identities matter. -/
inductive AssetID where
  | fanart | banner | clearlogo | title | snap
  | boxfront | boxback | box3d | cartridge | map
deriving DecidableEq, Repr

/-- Embeds `ScreenScraper.asset_name_mapping` (scraper.py lines 144-158): the static
provider-type to asset-kind table. -/
def asset_name_mapping (ty : String) : Option AssetID :=
  if ty = "fanart" then some AssetID.fanart
  else if ty = "screenmarqueesmall" then some AssetID.banner
  else if ty = "steamgrid" then some AssetID.banner
  else if ty = "wheel" then some AssetID.clearlogo
  else if ty = "wheel-carbon" then some AssetID.clearlogo
  else if ty = "wheel-steel" then some AssetID.clearlogo
  else if ty = "sstitle" then some AssetID.title
  else if ty = "ss" then some AssetID.snap
  else if ty = "box-2D" then some AssetID.boxfront
  else if ty = "box-2D-back" then some AssetID.boxback
  else if ty = "box-3D" then some AssetID.box3d
  else if ty = "support-2D" then some AssetID.cartridge
  else if ty = "maps" then some AssetID.map
  else none

/-- Embeds `ScreenScraper.URL_image` (scraper.py line 234). -/
def URL_image : String := "https://www.screenscraper.fr/image.php"

/-- The asset dictionary built per recognized media entry (the base class's
`_new_assetdata_dic` defaults are all overwritten). -/
structure AssetData where
  asset_ID : AssetID
  display_name : String
  url_thumb : String
  url : String
  SS_format : String
deriving DecidableEq, Repr

/-- The per-entry body of the loop in `_retrieve_all_assets` (scraper.py
lines 782-819) for a recognized media entry: region defaults to `''` when
absent, the display name appends the region, and the thumbnail URL is built
from the image service base, the game id and the `(type, region)` pair.
`none` models the `KeyError` of the unguarded `media_dic['url']` /
`media_dic['format']` reads. -/
def buildAsset (gameId : String) (aid : AssetID) (ty : String) (m : MediaDic) :
    Option AssetData := do
  let u ← m.url
  let fmt ← m.format
  let region := m.region.getD ""
  let media_type := if region ≠ "" then ty ++ " " ++ region else ty
  let url_thumb := URL_image ++ "?gameid=" ++ gameId ++ "&media=" ++ media_type ++
    "&region=" ++ region ++ "&hd=0&num=&version=&maxwidth=338&maxheight=190"
  pure { asset_ID := aid, display_name := media_type, url_thumb := url_thumb,
         url := u, SS_format := fmt }

/-- The loop of `_retrieve_all_assets`: look each entry's `type` up in the
static table, silently skip entries whose type is absent, build one asset
dictionary per recognized entry.  `jeu_dic['id']` is only read inside the
recognized branch, so `gameId` is resolved there. -/
def assetsLoop (idOpt : Option String) : List MediaDic → Option (List AssetData)
  | [] => some []
  | m :: rest => do
    let ty ← m.type
    match asset_name_mapping ty with
    | none => assetsLoop idOpt rest
    | some aid => do
      let gameId ← idOpt
      let a ← buildAsset gameId aid ty m
      let l ← assetsLoop idOpt rest
      pure (a :: l)

/-- Embeds `ScreenScraper._retrieve_all_assets(jeu_dic, status_dic)` (scraper.py
lines 779-821).  It never touches the status descriptor; `none` models an
uncaught `KeyError` (missing `medias`, or a malformed entry). -/
def retrieve_all_assets (jeu : JeuDic) : Option (List AssetData) := do
  let ms ← jeu.medias
  assetsLoop jeu.id ms

/-- The metadata dictionary assembled by `get_metadata`. -/
structure GameData where
  title : String
  year : String
  genre : String
  developer : String
  nplayers : String
  esrb : String
  plot : String
deriving DecidableEq, Repr

/-- Modelled from the spec: the base class's `_new_gamedata_dic` creates the
empty metadata record (empty strings) returned when the scraper is
disabled. -/
def emptyGamedata : GameData :=
  { title := "", year := "", genre := "", developer := "", nplayers := "",
    esrb := "", plot := "" }

/-- Embeds `ScreenScraper.get_metadata` (scraper.py lines 351-374): empty data if
`self.scraper_disabled`; otherwise the cached record is required (a cache
miss raises `ValueError('Logic error')`, the outer `none`) and each field is
parsed from it.  `parse_meta_genre`'s uncaught `IndexError` propagates. -/
def get_metadata (scraper_disabled : Bool) (cache : Option JeuDic)
    (user_region user_language : String) : Option GameData :=
  if scraper_disabled then some emptyGamedata
  else
    match cache with
    | none => none
    | some jeu =>
      match parse_meta_genre user_language jeu with
      | none => none
      | some genre =>
        some { title := parse_meta_title user_region jeu,
               year := parse_meta_year user_region jeu,
               genre := genre,
               developer := parse_meta_developer jeu,
               nplayers := parse_meta_nplayers jeu,
               esrb := parse_meta_esrb jeu,
               plot := parse_meta_plot user_language jeu }

/-- Embeds `ScreenScraper.get_assets` (scraper.py lines 378-408): empty list if
`self.scraper_disabled`; otherwise the cached record is required (`ValueError`
on a miss), all assets are extracted and filtered by the requested kind, and
`None` is returned if the descriptor marks an error (the extraction itself
never marks one).  The closing `_wait_for_asset_request` throttling sleep is
a real-time effect no claim touches and is elided. -/
def get_assets (scraper_disabled : Bool) (cache : Option JeuDic)
    (asset_info_id : AssetID) (st : StatusDic) :
    Option (Option (List AssetData) × StatusDic) :=
  if scraper_disabled then some (some [], st)
  else
    match cache with
    | none => none
    | some jeu =>
      match retrieve_all_assets jeu with
      | none => none
      | some all =>
        if st.status = false then some (none, st)
        else some (some (all.filter (fun a => a.asset_ID = asset_info_id)), st)

/-! ## URL redaction: `_clean_URL_for_log`

The source applies twelve `re.sub` substitutions whose patterns all have the
shape `key=[^X]*&` or `key=[^X]*$` for a literal `key=` and a single excluded
character `X`.  They are embedded as specialised scanners with `re.sub`'s
semantics: leftmost match, non-overlapping, continue after each replacement
(here the replacement is empty). -/

/-- Drop characters up to and including the first `'&'`; `none` when there is
no `'&'` (so `key=[^&]*&` cannot match at this position). -/
def dropThroughAmp : List Char → Option (List Char)
  | [] => none
  | c :: rest => if c = '&' then some rest else dropThroughAmp rest

/-- Embeds `re.sub('key=[^&]*&', '', s)`: at each position, if `key` matches and an
`'&'` follows the value run, remove through that `'&'` and continue after it;
otherwise advance one character.  Fueled by the string length (the fuel-
exhausted branch is unreachable since each step strictly shortens the
input). -/
def subKeyAmpF (key : List Char) : Nat → List Char → List Char
  | 0, s => s
  | Nat.succ f, s =>
    match s with
    | [] => []
    | c :: rest =>
      if key.isPrefixOf (c :: rest) then
        match dropThroughAmp ((c :: rest).drop key.length) with
        | some rem => subKeyAmpF key f rem
        | none => c :: subKeyAmpF key f rest
      else c :: subKeyAmpF key f rest

/-- Embeds `re.sub(key ++ '[^&]*&', '', url)` on strings. -/
def subKeyAmp (key url : String) : String :=
  String.mk (subKeyAmpF key.data url.data.length url.data)

/-- Embeds `re.sub(key ++ '[^X]*$', '', s)` for an excluded character `X`: the
pattern matches only where `key` occurs and no `X` appears in the remainder
of the string, and the match removes everything to the end. -/
def subKeyEndF (bad : Char) (key : List Char) : List Char → List Char
  | [] => []
  | c :: rest =>
    if key.isPrefixOf (c :: rest) ∧ ¬ ((c :: rest).drop key.length).contains bad then []
    else c :: subKeyEndF bad key rest

/-- Embeds `re.sub(key ++ '[^X]*$', '', url)` on strings. -/
def subKeyEnd (bad : Char) (key url : String) : String :=
  String.mk (subKeyEndF bad key.data url.data)

/-- Embeds `ScreenScraper._clean_URL_for_log` (scraper.py lines 867-893): the twelve
substitutions in source order.  Note the source's fourth pattern is
`devpassword=[^$]*$` (excluding `'$'`, not `'&'`), faithfully kept. -/
def clean_URL_for_log (url : String) : String :=
  let u := subKeyAmp "devid=" url
  let u := subKeyEnd '&' "devid=" u
  let u := subKeyAmp "devpassword=" u
  let u := subKeyEnd '$' "devpassword=" u
  let u := subKeyAmp "softname=" u
  let u := subKeyEnd '&' "softname=" u
  let u := subKeyAmp "output=" u
  let u := subKeyEnd '&' "output=" u
  let u := subKeyAmp "ssid=" u
  let u := subKeyEnd '&' "ssid=" u
  let u := subKeyAmp "sspassword=" u
  let u := subKeyEnd '&' "sspassword=" u
  u

/-! ## Spec-side field resolution (refinement targets)

The following three definitions are written from the spec's words
(section 4.4): return the text of an entry matching the user's preferred
region/language if one exists, else the text of the first entry matching the
fallback chain taken in chain order, else the default constant.  They are the
reference against which the source's loop structure is compared. -/

/-- Spec-side resolution for a region-partitioned field. -/
def resolveRegionSpec (pref : String) (chain : List String)
    (entries : Option (List RegionEntry)) (dflt : String) : String :=
  match entries with
  | none => dflt
  | some es =>
    match es.find? (fun n => n.region == some pref) with
    | some n => n.text.getD dflt
    | none =>
      match chain.findSome? (fun r => es.find? (fun n => n.region == some r)) with
      | some n => n.text.getD dflt
      | none => dflt

/-- Spec-side resolution for a language-partitioned field. -/
def resolveLangSpec (pref : String) (chain : List String)
    (entries : Option (List LangEntry)) (dflt : String) : String :=
  match entries with
  | none => dflt
  | some es =>
    match es.find? (fun n => n.langue == some pref) with
    | some n => n.text.getD dflt
    | none =>
      match chain.findSome? (fun l => es.find? (fun n => n.langue == some l)) with
      | some n => n.text.getD dflt
      | none => dflt

/-- Spec-side resolution for the date field as the year parser uses it: the
selected entry's text truncated to its first four characters (spec section
4.4: "Year is truncated to its first 4 characters of the resolved date
string"); the default constant is returned untruncated. -/
def resolveYearSpec (pref : String) (chain : List String)
    (entries : Option (List RegionEntry)) (dflt : String) : String :=
  match entries with
  | none => dflt
  | some es =>
    match es.find? (fun n => n.region == some pref) with
    | some n => (n.text.getD dflt).take 4
    | none =>
      match chain.findSome? (fun r => es.find? (fun n => n.region == some r)) with
      | some n => (n.text.getD dflt).take 4
      | none => dflt

/-- Well-formedness of a region-partitioned entry list per the spec's data
model (section 3): every entry carries its `region` key and its `text`. -/
def regionWF (es : List RegionEntry) : Prop :=
  ∀ n ∈ es, n.region ≠ none ∧ n.text ≠ none

/-- Well-formedness of a language-partitioned entry list. -/
def langWF (es : List LangEntry) : Prop :=
  ∀ n ∈ es, n.langue ≠ none ∧ n.text ≠ none

instance (es : List RegionEntry) : Decidable (regionWF es) := by
  unfold regionWF; infer_instance

instance (es : List LangEntry) : Decidable (langWF es) := by
  unfold langWF; infer_instance

/-! ## Concrete fixtures used by witnesses and counterexamples -/

/-- The status descriptor as `kodi.new_status_dic('Scraper test was OK')`
creates it in the repository's tests. -/
def okStatusDic : StatusDic := ⟨true, some "Scraper test was OK", none⟩

/-- A response stream that always answers 404 (no match). -/
def resp404 : Nat → HttpResponse := fun _ => ⟨404, none⟩

/-- A response stream that always answers 429 (per-minute quota). -/
def resp429 : Nat → HttpResponse := fun _ => ⟨429, none⟩

/-- A concrete checksum record (the jeuInfos example of the API docs). -/
def sonicChecksums : Checksums :=
  ⟨"50ABC90A", "50ABC90A50ABC90A", "50ABC90A50ABC90A50ABC90A", 749652,
   "Sonic The Hedgehog 2 (World).zip"⟩

/-- A concrete ROM file reference. -/
def sonicFN : FileName := ⟨"/roms/Sonic The Hedgehog 2 (World).zip"⟩

/-- An empty cached record. -/
def emptyJeu : JeuDic :=
  { id := none, noms := none, dates := none, genres := none,
    developpeur := none, joueurs := none, synopsis := none, medias := none }

/-- A cached record whose `dates` list holds a full date for region `us`. -/
def dateJeu : JeuDic :=
  { emptyJeu with dates := some [{ region := some "us", text := some "1991-05-17" }] }

/-- A cached record with `joueurs` text `"1-4"`. -/
def nplayersJeu : JeuDic :=
  { emptyJeu with joueurs := some { text := some "1-4" } }

/-- A cached record whose `noms` list has no entry for region `us` before
one for region `jp`. -/
def titleJeu : JeuDic :=
  { emptyJeu with
    noms := some [{ region := some "jp", text := some "Sonikku" },
                  { region := some "us", text := some "Sonic 2" }] }

/-- A media list with one recognized (`fanart`) and one unrecognized
(`bezel-16-9`) entry. -/
def assetsMedias : List MediaDic :=
  [{ type := some "fanart", region := some "wor",
     url := some "https://www.screenscraper.fr/media/fanart.jpg",
     format := some "jpg" },
   { type := some "bezel-16-9", region := none,
     url := some "https://www.screenscraper.fr/media/bezel.png",
     format := some "png" }]

/-- A cached record holding `assetsMedias`. -/
def assetsJeu : JeuDic :=
  { emptyJeu with id := some "5", medias := some assetsMedias }

/-- A scraper instance with no ScreenScraper credentials configured. -/
def noCredState : ScraperState :=
  { ssid := "", sspassword := "", scraper_disabled := false,
    scraper_deactivated := false }

/-- The scraper state right after `check_before_scraping` reports the
configuration error for `noCredState`. -/
def afterCheck : ScraperState × StatusDic :=
  check_before_scraping noCredState okStatusDic

/-! ## Helper lemmas -/

theorem findRegionText_eq (target d : String) (es : List RegionEntry) (h : regionWF es) :
    findRegionText target es =
      Except.ok ((es.find? (fun n => n.region == some target)).map (fun n => n.text.getD d)) := by
  induction es with
  | nil => rfl
  | cons n rest ih =>
    obtain ⟨hr, ht⟩ := h n (by simp)
    obtain ⟨r, hr'⟩ := Option.ne_none_iff_exists'.mp hr
    obtain ⟨t, ht'⟩ := Option.ne_none_iff_exists'.mp ht
    have hwf : regionWF rest := fun m hm => h m (by simp [hm])
    by_cases hrt : r = target
    · subst hrt
      simp [findRegionText, hr', ht', List.find?_cons_of_pos, hr']
    · have hpred : (n.region == some target) = false := by
        simp [hr', hrt]
      have hfind : (n :: rest).find? (fun m => m.region == some target) =
          rest.find? (fun m => m.region == some target) :=
        List.find?_cons_of_neg _ (by simp [hpred])
      simp [findRegionText, hr', hrt, hfind, ih hwf]

theorem chainRegionText_eq (d : String) (chain : List String) (es : List RegionEntry)
    (h : regionWF es) :
    chainRegionText chain es =
      Except.ok ((chain.findSome? (fun r => es.find? (fun n => n.region == some r))).map
        (fun n => n.text.getD d)) := by
  induction chain with
  | nil => rfl
  | cons r rs ih =>
    simp only [chainRegionText, findRegionText_eq r d es h, List.findSome?_cons]
    cases hf : es.find? (fun n => n.region == some r) with
    | none => simpa [hf] using ih
    | some n => simp [hf]

theorem findLangText_eq (target d : String) (es : List LangEntry) (h : langWF es) :
    findLangText target es =
      Except.ok ((es.find? (fun n => n.langue == some target)).map (fun n => n.text.getD d)) := by
  induction es with
  | nil => rfl
  | cons n rest ih =>
    obtain ⟨hr, ht⟩ := h n (by simp)
    obtain ⟨r, hr'⟩ := Option.ne_none_iff_exists'.mp hr
    obtain ⟨t, ht'⟩ := Option.ne_none_iff_exists'.mp ht
    have hwf : langWF rest := fun m hm => h m (by simp [hm])
    by_cases hrt : r = target
    · subst hrt
      simp [findLangText, hr', ht', List.find?_cons_of_pos, hr']
    · have hpred : (n.langue == some target) = false := by
        simp [hr', hrt]
      have hfind : (n :: rest).find? (fun m => m.langue == some target) =
          rest.find? (fun m => m.langue == some target) :=
        List.find?_cons_of_neg _ (by simp [hpred])
      simp [findLangText, hr', hrt, hfind, ih hwf]

theorem chainLangText_eq (d : String) (chain : List String) (es : List LangEntry)
    (h : langWF es) :
    chainLangText chain es =
      Except.ok ((chain.findSome? (fun l => es.find? (fun n => n.langue == some l))).map
        (fun n => n.text.getD d)) := by
  induction chain with
  | nil => rfl
  | cons l ls ih =>
    simp only [chainLangText, findLangText_eq l d es h, List.findSome?_cons]
    cases hf : es.find? (fun n => n.langue == some l) with
    | none => simpa [hf] using ih
    | some n => simp [hf]

theorem retrieveAux_all429 (resp : Nat → HttpResponse)
    (h : ∀ k, (resp k).code = 429) :
    ∀ fuel k retry st, retrieveAux resp fuel k retry st =
      ⟨none, handle_error st "Bad HTTP status code 429",
       (List.range fuel).map (fun i => 120 * (retry + 1 + i)), fuel + 1⟩ := by
  intro fuel
  induction fuel with
  | zero =>
    intro k retry st
    simp only [retrieveAux, classifyNoRetry, h k]
    rfl
  | succ f ih =>
    intro k retry st
    simp only [retrieveAux, h k, if_pos rfl, ih (k + 1) (retry + 1) st]
    refine congrArg (fun w => FetchResult.mk none _ w (f + 1 + 1)) ?_
    rw [List.range_succ_eq_map, List.map_cons, List.map_map]
    refine congrArg₂ List.cons (by ring_nf) ?_
    refine List.map_congr_left ?_
    intro i _
    simp [Function.comp]
    ring

theorem replaceAllF_no_occur (pat rep : List Char) :
    ∀ f s, hasOccur pat s = false → replaceAllF pat rep f s = s := by
  intro f
  induction f with
  | zero => intro s _; rfl
  | succ f ih =>
    intro s hs
    cases s with
    | nil => rfl
    | cons c rest =>
      rw [hasOccur, Bool.or_eq_false_iff] at hs
      obtain ⟨h1, h2⟩ := hs
      simp [replaceAllF, h1, ih rest h2]

theorem assetsLoop_count (gid : String) :
    ∀ ms : List MediaDic,
      (∀ m ∈ ms, m.type ≠ none ∧ m.url ≠ none ∧ m.format ≠ none) →
      ∃ l, assetsLoop (some gid) ms = some l ∧
        l.length = (ms.filter (fun m => (m.type.bind asset_name_mapping).isSome)).length := by
  intro ms
  induction ms with
  | nil => intro _; exact ⟨[], rfl, rfl⟩
  | cons m rest ih =>
    intro h
    obtain ⟨hty, hurl, hfmt⟩ := h m (by simp)
    obtain ⟨ty, hty'⟩ := Option.ne_none_iff_exists'.mp hty
    obtain ⟨u, hu⟩ := Option.ne_none_iff_exists'.mp hurl
    obtain ⟨fm, hf⟩ := Option.ne_none_iff_exists'.mp hfmt
    obtain ⟨l, hl, hlen⟩ := ih (fun m' hm' => h m' (by simp [hm']))
    cases hmap : asset_name_mapping ty with
    | none =>
      refine ⟨l, ?_, ?_⟩
      · simp [assetsLoop, hty', hmap, hl]
      · simp [List.filter_cons, hty', hmap, hlen]
    | some aid =>
      obtain ⟨a, ha⟩ : ∃ a, buildAsset gid aid ty m = some a := by
        unfold buildAsset
        rw [hu, hf]
        exact ⟨_, rfl⟩
      refine ⟨a :: l, ?_, ?_⟩
      · simp [assetsLoop, hty', hmap, ha, hl]
      · simp [List.filter_cons, hty', hmap, hlen]

theorem search_candidates_shape (thr : Nat) (resp : Nat → HttpResponse)
    (rfn cfn : Option FileName) (cks : Option Checksums) (plat : String)
    (splat : Nat) (st : StatusDic) (r : SearchResult) (l : List Candidate)
    (h1 : search_candidates_jeuInfos thr resp rfn cfn cks plat splat st = some r)
    (h2 : r.candidates = some l) :
    l = [] ∨ ∃ c, l = [c] ∧ c.order = 1 := by
  cases rfn with
  | none =>
    cases cfn <;>
      (simp only [search_candidates_jeuInfos] at h1;
       injection h1 with h;
       subst h;
       simp at h2)
  | some fn =>
    cases cfn with
    | none =>
      simp only [search_candidates_jeuInfos] at h1
      injection h1 with h
      subst h
      simp at h2
    | some cf =>
      cases cks with
      | none =>
        simp only [search_candidates_jeuInfos] at h1
        injection h1 with h
        subst h
        simp at h2
      | some c =>
        simp only [search_candidates_jeuInfos] at h1
        by_cases hst : (retrieve_URL_as_JSON thr resp 0 st 0).st.status = false
        · rw [if_pos hst] at h1
          injection h1 with h
          subst h
          simp at h2
        · rw [if_neg hst] at h1
          cases hdata : (retrieve_URL_as_JSON thr resp 0 st 0).data with
          | none =>
            rw [hdata] at h1
            injection h1 with h
            subst h
            simp only [] at h2
            injection h2 with h2'
            exact Or.inl h2'.symm
          | some j =>
            rw [hdata] at h1
            cases hext : extractJeu j with
            | none =>
              simp [hext] at h1
            | some trip =>
              obtain ⟨jeu, idStr, title⟩ := trip
              simp only [hext, Option.some.injEq] at h1
              subst h1
              simp only [] at h2
              injection h2 with h2'
              subst h2'
              exact Or.inr ⟨_, rfl, rfl⟩

theorem get_candidates_shape (dis : Bool) (thr : Nat) (resp : Nat → HttpResponse)
    (rfn cfn : Option FileName) (cks : Option Checksums) (plat : String)
    (splat : Nat) (st : StatusDic) (r : SearchResult) (l : List Candidate)
    (h1 : get_candidates dis thr resp rfn cfn cks plat splat st = some r)
    (h2 : r.candidates = some l) :
    l = [] ∨ ∃ c, l = [c] ∧ c.order = 1 := by
  cases dis with
  | true =>
    simp only [get_candidates, if_pos] at h1
    injection h1 with h
    subst h
    simp at h2
  | false =>
    simp only [get_candidates, Bool.false_eq_true, if_false] at h1
    cases rfn with
    | none => exact absurd h1 (by simp)
    | some fn =>
      cases hs : search_candidates_jeuInfos thr resp (some fn) cfn cks plat splat st with
      | none => simp [hs] at h1
      | some r0 =>
        simp only [hs] at h1
        by_cases hst : r0.st.status = false
        · rw [if_pos hst] at h1
          injection h1 with h
          subst h
          simp at h2
        · rw [if_neg hst] at h1
          injection h1 with h
          subst h
          exact search_candidates_shape thr resp (some fn) cfn cks plat splat st r0 l hs h2

/-! ## Claim theorems -/

/-- C1: for every checksum record and platform id, the candidate search
(`get_candidates` via `_search_candidates_jeuInfos`) returns either a list
with exactly one `Candidate`, an empty result, or a failure; whenever it
returns a list, that list has at most one element and a sole element has
`order = 1`. -/
theorem c1_at_most_one_candidate :
    ∀ (thr : Nat) (resp : Nat → HttpResponse) (rfn cfn : Option FileName)
      (cks : Option Checksums) (plat : String) (splat : Nat) (st : StatusDic)
      (r : SearchResult) (l : List Candidate),
      (search_candidates_jeuInfos thr resp rfn cfn cks plat splat st = some r →
        r.candidates = some l → l = [] ∨ ∃ c, l = [c] ∧ c.order = 1) ∧
      (∀ dis, get_candidates dis thr resp rfn cfn cks plat splat st = some r →
        r.candidates = some l → l = [] ∨ ∃ c, l = [c] ∧ c.order = 1) :=
  fun thr resp rfn cfn cks plat splat st r l =>
    ⟨fun h1 h2 => search_candidates_shape thr resp rfn cfn cks plat splat st r l h1 h2,
     fun dis h1 h2 => get_candidates_shape dis thr resp rfn cfn cks plat splat st r l h1 h2⟩

/-- Witness for C1 at a concrete 404 run (empty candidate list). -/
theorem c1_witness :
    ([] : List Candidate) = [] ∨ ∃ c, ([] : List Candidate) = [c] ∧ c.order = 1 :=
  (c1_at_most_one_candidate 0 resp404 (some sonicFN) (some sonicFN) (some sonicChecksums)
    "Sega Mega Drive" 1 okStatusDic ⟨some [], okStatusDic, 1, none⟩ []).1 rfl rfl

/-- C2: a 404 on the identification call makes `_retrieve_URL_as_JSON`
return `None` with the status descriptor untouched, and
`_search_candidates_jeuInfos` then returns an empty candidate list with the
descriptor still reporting success. -/
theorem c2_404_is_success :
    ∀ (thr : Nat) (resp : Nat → HttpResponse) (fn cfn : FileName) (cks : Checksums)
      (plat : String) (splat : Nat) (st : StatusDic),
      (resp 0).code = 404 → st.status = true →
      retrieve_URL_as_JSON thr resp 0 st 0 = ⟨none, st, [], 1⟩ ∧
      search_candidates_jeuInfos thr resp (some fn) (some cfn) (some cks) plat splat st =
        some ⟨some [], st, 1, none⟩ := by
  intro thr resp fn cfn cks plat splat st h404 hst
  have hfetch : retrieve_URL_as_JSON thr resp 0 st 0 = ⟨none, st, [], 1⟩ := by
    unfold retrieve_URL_as_JSON
    rw [Nat.sub_zero]
    cases thr with
    | zero => simp [retrieveAux, classifyNoRetry, h404]
    | succ f => simp [retrieveAux, classifyNoRetry, h404]
  refine ⟨hfetch, ?_⟩
  simp [search_candidates_jeuInfos, hfetch, hst]

/-- Witness for C2 at a concrete 404 run. -/
theorem c2_witness :
    retrieve_URL_as_JSON 3 resp404 0 okStatusDic 0 = ⟨none, okStatusDic, [], 1⟩ ∧
    search_candidates_jeuInfos 3 resp404 (some sonicFN) (some sonicFN) (some sonicChecksums)
      "Sega Mega Drive" 1 okStatusDic = some ⟨some [], okStatusDic, 1, none⟩ :=
  c2_404_is_success 3 resp404 sonicFN sonicFN sonicChecksums "Sega Mega Drive" 1
    okStatusDic rfl rfl

/-- C3: on persistent 429 responses the fetcher waits `120 * n` seconds
before the n-th retry (`120 * (retry + 1)` with `retry` starting at 0),
issues at most `thr` retries (`thr + 1` requests in total for retry threshold
`thr`), and once the threshold is exhausted the next 429 is surfaced as a
failure in the status descriptor with a `None` result. -/
theorem c3_429_backoff_and_giveup :
    ∀ (thr : Nat) (resp : Nat → HttpResponse) (st : StatusDic),
      (∀ k, (resp k).code = 429) →
      retrieve_URL_as_JSON thr resp 0 st 0 =
        ⟨none, handle_error st "Bad HTTP status code 429",
         (List.range thr).map (fun n => 120 * (n + 1)), thr + 1⟩ ∧
      (handle_error st "Bad HTTP status code 429").status = false := by
  intro thr resp st h
  refine ⟨?_, rfl⟩
  unfold retrieve_URL_as_JSON
  rw [Nat.sub_zero, retrieveAux_all429 resp h thr 0 0 st]
  refine congrArg (fun w => FetchResult.mk none _ w (thr + 1)) ?_
  refine List.map_congr_left ?_
  intro i _
  ring

/-- Witness for C3 with retry threshold 1: one 120-second wait, two requests,
failure surfaced. -/
theorem c3_witness :
    retrieve_URL_as_JSON 1 resp429 0 okStatusDic 0 =
      ⟨none, handle_error okStatusDic "Bad HTTP status code 429", [120], 2⟩ ∧
    (handle_error okStatusDic "Bad HTTP status code 429").status = false := by
  have h := c3_429_backoff_and_giveup 1 resp429 okStatusDic (fun _ => rfl)
  rwa [show (List.range 1).map (fun n => 120 * (n + 1)) = [120] from rfl] at h

/-- C4 counterexample: the body `'\x7b"a": [1],\n\x7d'` is valid JSON except
for a trailing comma before the closing brace at the outermost nesting level
(removing just that comma decodes), yet the decode-with-repair pipeline fails
on it: the repair replaces only the exact byte run `'],\n\t\t\x7d'`, and this
body's defect is followed by a bare newline, not newline-tab-tab. -/
theorem c4_counterexample :
    loadsWithRepair "\x7b\"a\": [1],\n\x7d" = none ∧
    loads "\x7b\"a\": [1]\n\x7d" =
      some (JValue.obj [("a", JValue.arr [JValue.num "1"])]) :=
  ⟨rfl, rfl⟩

/-- C4 amended: the decode-with-repair logic of `_retrieve_URL_as_JSON`
handles exactly the two byte patterns `'],\n\t\t\x7d'` (array close) and
`'\t\t\x7d,\n\t\t\x7d'` (object close): when the raw body fails to decode
but its first-pattern repair decodes, the pipeline succeeds after one repair
pass with exactly the repaired text's value; when only the second-pattern
repair decodes, it succeeds on the second pass; and each repair leaves any
text in which its pattern does not occur byte-for-byte unchanged. -/
theorem c4_amended_repair :
    (∀ s v, loads s = none → loads (repair1 s) = some v → loadsWithRepair s = some v) ∧
    (∀ s v, loads s = none → loads (repair1 s) = none → loads (repair2 s) = some v →
      loadsWithRepair s = some v) ∧
    (∀ t : String, hasOccur ("],\n\t\t\x7d").data t.data = false → repair1 t = t) ∧
    (∀ t : String, hasOccur ("\t\t\x7d,\n\t\t\x7d").data t.data = false → repair2 t = t) := by
  refine ⟨?_, ?_, ?_, ?_⟩
  · intro s v h1 h2
    unfold loadsWithRepair
    rw [h1, h2]
  · intro s v h1 h2 h3
    unfold loadsWithRepair
    rw [h1, h2, h3]
  · intro t h
    unfold repair1 pyReplace replaceAll
    rw [if_neg (by decide), replaceAllF_no_occur _ _ _ _ h]
  · intro t h
    unfold repair2 pyReplace replaceAll
    rw [if_neg (by decide), replaceAllF_no_occur _ _ _ _ h]

/-- Witness for C4 amended: a body whose defect matches the first repair
pattern decodes to the repaired text's value after one repair pass. -/
theorem c4_witness :
    loadsWithRepair "\x7b\"a\": [1],\n\t\t\x7d" =
      some (JValue.obj [("a", JValue.arr [JValue.num "1"])]) :=
  c4_amended_repair.1 "\x7b\"a\": [1],\n\t\t\x7d"
    (JValue.obj [("a", JValue.arr [JValue.num "1"])]) rfl rfl

/-- C5 counterexample: for the date field the resolver does not return the
selected entry's text: `_parse_meta_year` slices it to its first four
characters, so a record whose `us` date entry reads `1991-05-17` resolves to
`1991`, not to the entry's text. -/
theorem c5_counterexample :
    parse_meta_year "us" dateJeu = "1991" ∧
    dateJeu.dates = some [{ region := some "us", text := some "1991-05-17" }] ∧
    ("1991" : String) ≠ "1991-05-17" :=
  ⟨rfl, rfl, by decide⟩

/-- C5 amended: for well-formed entry lists (each entry carries its
region/langue key and its text, per the data model), the resolvers for
title, genre name and synopsis return exactly the spec-side resolution —
the text of an entry matching the user's preferred region/language if one
exists, else the text of the first entry matching the fallback chain in
chain order, else the field's default constant — while the date field
resolves the entry the same way but returns its text truncated to the first
four characters; the genre resolver reads only the first genre item and
yields the default when the `genres` key is absent. -/
theorem c5_amended_resolution :
    (∀ ur jeu, regionWF (jeu.noms.getD []) →
      parse_meta_title ur jeu = resolveRegionSpec ur region_list jeu.noms DEFAULT_META_TITLE) ∧
    (∀ ur jeu, regionWF (jeu.dates.getD []) →
      parse_meta_year ur jeu = resolveYearSpec ur region_list jeu.dates DEFAULT_META_YEAR) ∧
    (∀ ul jeu g gs, jeu.genres = some (g :: gs) → langWF (g.noms.getD []) →
      parse_meta_genre ul jeu =
        some (resolveLangSpec ul language_list g.noms DEFAULT_META_GENRE)) ∧
    (∀ ul jeu, jeu.genres = none → parse_meta_genre ul jeu = some DEFAULT_META_GENRE) ∧
    (∀ ul jeu, langWF (jeu.synopsis.getD []) →
      parse_meta_plot ul jeu = resolveLangSpec ul language_list jeu.synopsis DEFAULT_META_PLOT) := by
  refine ⟨?_, ?_, ?_, ?_, ?_⟩
  · intro ur jeu h
    cases hn : jeu.noms with
    | none => simp [parse_meta_title, resolveRegionSpec, hn]
    | some noms =>
      rw [hn] at h
      simp only [Option.getD_some] at h
      simp only [parse_meta_title, resolveRegionSpec, hn,
        findRegionText_eq ur DEFAULT_META_TITLE noms h,
        chainRegionText_eq DEFAULT_META_TITLE region_list noms h]
      cases hf : noms.find? (fun n => n.region == some ur) with
      | some n => simp [hf]
      | none =>
        simp only [hf, Option.map_none']
        cases hc : region_list.findSome? (fun r => noms.find? (fun n => n.region == some r)) with
        | some n => simp [hc]
        | none => simp [hc]
  · intro ur jeu h
    cases hn : jeu.dates with
    | none => simp [parse_meta_year, resolveYearSpec, hn]
    | some dates =>
      rw [hn] at h
      simp only [Option.getD_some] at h
      simp only [parse_meta_year, resolveYearSpec, hn,
        findRegionText_eq ur DEFAULT_META_YEAR dates h,
        chainRegionText_eq DEFAULT_META_YEAR region_list dates h]
      cases hf : dates.find? (fun n => n.region == some ur) with
      | some n => simp [hf]
      | none =>
        simp only [hf, Option.map_none']
        cases hc : region_list.findSome? (fun r => dates.find? (fun n => n.region == some r)) with
        | some n => simp [hc]
        | none => simp [hc]
  · intro ul jeu g gs hg h
    simp only [parse_meta_genre, hg]
    cases hn : g.noms with
    | none => simp [resolveLangSpec, hn]
    | some noms =>
      rw [hn] at h
      simp only [Option.getD_some] at h
      simp only [resolveLangSpec, hn,
        findLangText_eq ul DEFAULT_META_GENRE noms h,
        chainLangText_eq DEFAULT_META_GENRE language_list noms h]
      cases hf : noms.find? (fun n => n.langue == some ul) with
      | some n => simp [hf]
      | none =>
        simp only [hf, Option.map_none']
        cases hc : language_list.findSome? (fun l => noms.find? (fun n => n.langue == some l)) with
        | some n => simp [hc]
        | none => simp [hc]
  · intro ul jeu h
    simp [parse_meta_genre, h]
  · intro ul jeu h
    cases hn : jeu.synopsis with
    | none => simp [parse_meta_plot, resolveLangSpec, hn]
    | some syn =>
      rw [hn] at h
      simp only [Option.getD_some] at h
      simp only [parse_meta_plot, resolveLangSpec, hn,
        findLangText_eq ul DEFAULT_META_PLOT syn h,
        chainLangText_eq DEFAULT_META_PLOT language_list syn h]
      cases hf : syn.find? (fun n => n.langue == some ul) with
      | some n => simp [hf]
      | none =>
        simp only [hf, Option.map_none']
        cases hc : language_list.findSome? (fun l => syn.find? (fun n => n.langue == some l)) with
        | some n => simp [hc]
        | none => simp [hc]

/-- Witness for C5 amended: the title of `titleJeu` for preferred region
`us` resolves per the spec-side resolution. -/
theorem c5_witness :
    parse_meta_title "us" titleJeu =
      resolveRegionSpec "us" region_list titleJeu.noms DEFAULT_META_TITLE :=
  c5_amended_resolution.1 "us" titleJeu (by decide)

/-- C6: the code sets the wrong flag.  With missing credentials
`check_before_scraping` sets `scraper_deactivated`, but `get_candidates`,
`get_metadata` and `get_assets` all test `scraper_disabled`, which nothing in
this repository ever sets; evaluated after the configuration error, a
subsequent `get_candidates` still issues one HTTP request (`calls = 1`
instead of the claimed zero), and `get_metadata`/`get_assets` fall through to
the cache lookup whose miss raises `ValueError` instead of returning empty
data. -/
theorem c6_deactivation_flag_mismatch :
    afterCheck.1.scraper_deactivated = true ∧
    afterCheck.1.scraper_disabled = false ∧
    afterCheck.2.status = false ∧
    get_candidates afterCheck.1.scraper_disabled 3 resp404 (some sonicFN) (some sonicFN)
        (some sonicChecksums) "Sega Mega Drive" 1 okStatusDic =
      some ⟨some [], okStatusDic, 1, none⟩ ∧
    get_metadata afterCheck.1.scraper_disabled none "wor" "en" = none ∧
    get_assets afterCheck.1.scraper_disabled none AssetID.fanart okStatusDic = none :=
  ⟨rfl, rfl, rfl, rfl, rfl, rfl⟩

theorem isPrefixOfChar_iff (a b : List Char) : a.isPrefixOf b = true ↔ a <+: b :=
  List.isPrefixOf_iff_prefix

theorem prefixChar_iff_take (a b : List Char) : a <+: b ↔ b.take a.length = a := by
  constructor
  · rintro ⟨r, hr⟩
    rw [← hr]
    exact List.take_left a r
  · intro h
    have hb := List.take_append_drop a.length b
    rw [h] at hb
    exact ⟨b.drop a.length, hb⟩

theorem take_append_trunc (n : Nat) (x t : List Char) (hx : 0 < x.length) :
    (x ++ t.take (n - 1)).take n = (x ++ t).take n := by
  rw [List.take_append_eq_append_take, List.take_append_eq_append_take, List.take_take]
  congr 1
  exact congrArg (fun m => t.take m) (Nat.min_eq_left (by omega))

theorem prefix_append_trunc (k x t : List Char) (hx : 0 < x.length) :
    (k <+: x ++ t) ↔ (k <+: x ++ t.take (k.length - 1)) := by
  rw [prefixChar_iff_take, prefixChar_iff_take, take_append_trunc k.length x t hx]

/-- If a key occurs neither inside `x` nor inside `t`, and no nonempty proper
suffix of the key starts `t` (no occurrence can span the boundary), then the
key does not occur in `x ++ t`. -/
theorem hasOccur_append_false (k : List Char) :
    ∀ x t, hasOccur k x = false → hasOccur k t = false →
      (∀ j < k.length, 0 < j → (k.drop j).isPrefixOf t = false) →
      hasOccur k (x ++ t) = false := by
  intro x
  induction x with
  | nil =>
    intro t _ ht _
    simpa using ht
  | cons c x' ih =>
    intro t hx ht hspan
    rw [List.cons_append, hasOccur, Bool.or_eq_false_iff]
    rw [hasOccur, Bool.or_eq_false_iff] at hx
    obtain ⟨hx1, hx2⟩ := hx
    refine ⟨?_, ih t hx2 ht hspan⟩
    cases hb : k.isPrefixOf (c :: (x' ++ t)) with
    | false => rfl
    | true =>
      exfalso
      have hpre : k <+: (c :: x') ++ t := by
        rw [List.cons_append]
        exact (isPrefixOfChar_iff k (c :: (x' ++ t))).mp hb
      rcases le_or_lt k.length (c :: x').length with hle | hlt
      · have hkx : k <+: (c :: x') := by
          rw [prefixChar_iff_take] at hpre ⊢
          rw [List.take_append_eq_append_take, Nat.sub_eq_zero_of_le hle,
            List.take_zero, List.append_nil] at hpre
          exact hpre
        have : k.isPrefixOf (c :: x') = true := (isPrefixOfChar_iff _ _).mpr hkx
        rw [this] at hx1
        cases hx1
      · obtain ⟨r, hr⟩ := hpre
        have hdrop : (k.drop (c :: x').length).isPrefixOf t = true := by
          rw [isPrefixOfChar_iff]
          refine ⟨r, ?_⟩
          have h1 : ((c :: x') ++ t).drop (c :: x').length = t := List.drop_left _ _
          rw [← hr, List.drop_append_eq_append_drop,
            Nat.sub_eq_zero_of_le (Nat.le_of_lt hlt), List.drop_zero] at h1
          exact h1
        have := hspan (c :: x').length hlt (by simp)
        rw [hdrop] at this
        cases this

theorem dropThroughAmp_length :
    ∀ l r : List Char, dropThroughAmp l = some r → r.length < l.length := by
  intro l
  induction l with
  | nil =>
    intro r h
    exact absurd h (by simp [dropThroughAmp])
  | cons c rest ih =>
    intro r h
    by_cases hc : c = '&'
    · rw [dropThroughAmp, if_pos hc] at h
      injection h with h
      subst h
      simp
    · rw [dropThroughAmp, if_neg hc] at h
      exact Nat.lt_trans (ih r h) (by simp)

theorem subKeyAmpF_nil (key : List Char) : ∀ f, subKeyAmpF key f [] = [] := by
  intro f
  cases f <;> rfl

theorem subKeyAmpF_congr (key : List Char) :
    ∀ f1 f2 s, s.length ≤ f1 → s.length ≤ f2 →
      subKeyAmpF key f1 s = subKeyAmpF key f2 s := by
  intro f1
  induction f1 with
  | zero =>
    intro f2 s h1 _
    cases s with
    | nil => simp [subKeyAmpF_nil]
    | cons c rest => simp at h1
  | succ g ih =>
    intro f2 s h1 h2
    cases s with
    | nil => simp [subKeyAmpF_nil]
    | cons c rest =>
      cases f2 with
      | zero => simp at h2
      | succ g2 =>
        simp only [subKeyAmpF]
        by_cases hp : key.isPrefixOf (c :: rest)
        · rw [if_pos hp, if_pos hp]
          cases hd : dropThroughAmp ((c :: rest).drop key.length) with
          | some rem =>
            have hrem : rem.length < (c :: rest).length :=
              Nat.lt_of_lt_of_le (dropThroughAmp_length _ rem hd)
                (by simp)
            exact ih g2 rem (by omega) (by omega)
          | none =>
            exact congrArg (c :: ·) (ih g2 rest (by simpa using h1) (by simpa using h2))
        · rw [if_neg hp, if_neg hp]
          exact congrArg (c :: ·) (ih g2 rest (by simpa using h1) (by simpa using h2))

/-- Transfer non-matching of the key from the truncated tail to the full
tail (a match starting at the head touches at most `key.length - 1`
characters of `t`). -/
theorem isPrefixOf_of_trunc_false (key : List Char) (c : Char) (x' t : List Char)
    (h1 : key.isPrefixOf (c :: (x' ++ t.take (key.length - 1))) = false) :
    key.isPrefixOf (c :: (x' ++ t)) = false := by
  cases hb : key.isPrefixOf (c :: (x' ++ t)) with
  | false => rfl
  | true =>
    exfalso
    have hp : key <+: (c :: x') ++ t := by
      rw [List.cons_append]
      exact (isPrefixOfChar_iff _ _).mp hb
    have hp' : key <+: (c :: x') ++ t.take (key.length - 1) :=
      (prefix_append_trunc key (c :: x') t (by simp)).mp hp
    have : key.isPrefixOf (c :: (x' ++ t.take (key.length - 1))) = true := by
      rw [← List.cons_append]
      exact (isPrefixOfChar_iff _ _).mpr hp'
    rw [this] at h1
    cases h1

theorem subKeyAmpF_append (key : List Char) :
    ∀ x t f, (x ++ t).length ≤ f →
      hasOccur key (x ++ t.take (key.length - 1)) = false →
      subKeyAmpF key f (x ++ t) = x ++ subKeyAmpF key t.length t := by
  intro x
  induction x with
  | nil =>
    intro t f hf h
    simpa using subKeyAmpF_congr key f t.length t (by simpa using hf) (Nat.le_refl _)
  | cons c x' ih =>
    intro t f hf h
    cases f with
    | zero => simp at hf
    | succ g =>
      rw [List.cons_append, hasOccur, Bool.or_eq_false_iff] at h
      obtain ⟨h1, h2⟩ := h
      have h1' : key.isPrefixOf (c :: (x' ++ t)) = false :=
        isPrefixOf_of_trunc_false key c x' t h1
      rw [List.cons_append]
      simp only [subKeyAmpF, h1', Bool.false_eq_true, if_false]
      rw [ih t g (by simpa using hf) h2, List.cons_append]

theorem subKeyEndF_append (bad : Char) (key : List Char) :
    ∀ x t, hasOccur key (x ++ t.take (key.length - 1)) = false →
      subKeyEndF bad key (x ++ t) = x ++ subKeyEndF bad key t := by
  intro x
  induction x with
  | nil => intro t _; rfl
  | cons c x' ih =>
    intro t h
    rw [List.cons_append, hasOccur, Bool.or_eq_false_iff] at h
    obtain ⟨h1, h2⟩ := h
    have h1' : key.isPrefixOf (c :: (x' ++ t)) = false :=
      isPrefixOf_of_trunc_false key c x' t h1
    rw [List.cons_append, subKeyEndF, if_neg (by rw [h1']; simp)]
    rw [ih t h2, List.cons_append]

theorem stringMk_data (s : String) : String.mk s.data = s := rfl

theorem subKeyAmp_append_str (key p t t' : String)
    (h : hasOccur key.data (p.data ++ t.data.take (key.data.length - 1)) = false)
    (hcomp : subKeyAmpF key.data t.data.length t.data = t'.data) :
    subKeyAmp key (p ++ t) = p ++ t' := by
  unfold subKeyAmp
  rw [String.data_append p t,
    subKeyAmpF_append key.data p.data t.data (p.data ++ t.data).length (Nat.le_refl _) h,
    hcomp, ← String.data_append p t', stringMk_data]

theorem subKeyEnd_append_str (bad : Char) (key p t t' : String)
    (h : hasOccur key.data (p.data ++ t.data.take (key.data.length - 1)) = false)
    (hcomp : subKeyEndF bad key.data t.data = t'.data) :
    subKeyEnd bad key (p ++ t) = p ++ t' := by
  unfold subKeyEnd
  rw [String.data_append p t,
    subKeyEndF_append bad key.data p.data t.data h,
    hcomp, ← String.data_append p t', stringMk_data]

/-- C7: `_clean_URL_for_log` removes the four credential parameters
`devid`, `devpassword`, `ssid`, `sspassword` (and the `softname`/`output`
pairs, whether followed by `&` or at end-of-string) while preserving the
non-credential parameter `other=1` unchanged: evaluated on the spec's URL, on
a variant with `softname`/`output` mid-URL, on an end-of-string variant, and
— generalising over the URL — for every URL built from any prefix in which
none of the six redacted keys occurs, followed by the claim's parameter
block. -/
theorem c7_clean_URL_redaction :
    clean_URL_for_log
        "https://www.screenscraper.fr/api2/jeuInfos.php?devid=ABC&devpassword=XYZ&ssid=foo&sspassword=bar&other=1" =
      "https://www.screenscraper.fr/api2/jeuInfos.php?other=1" ∧
    clean_URL_for_log
        "https://www.screenscraper.fr/api2/jeuInfos.php?devid=ABC&devpassword=XYZ&softname=AEL&output=json&ssid=foo&sspassword=bar&other=1" =
      "https://www.screenscraper.fr/api2/jeuInfos.php?other=1" ∧
    clean_URL_for_log
        "https://www.screenscraper.fr/api2/jeuInfos.php?other=1&softname=AEL&output=json&devid=ABC" =
      "https://www.screenscraper.fr/api2/jeuInfos.php?other=1&" ∧
    (∀ pre : String,
      hasOccur ("devid=").data pre.data = false →
      hasOccur ("devpassword=").data pre.data = false →
      hasOccur ("softname=").data pre.data = false →
      hasOccur ("output=").data pre.data = false →
      hasOccur ("ssid=").data pre.data = false →
      hasOccur ("sspassword=").data pre.data = false →
      clean_URL_for_log (pre ++ "devid=ABC&devpassword=XYZ&ssid=foo&sspassword=bar&other=1") =
        pre ++ "other=1") := by
  refine ⟨rfl, rfl, rfl, ?_⟩
  intro pre h1 h2 h3 h4 h5 h6
  have s1 : subKeyAmp "devid="
      (pre ++ "devid=ABC&devpassword=XYZ&ssid=foo&sspassword=bar&other=1") =
      pre ++ "devpassword=XYZ&ssid=foo&sspassword=bar&other=1" :=
    subKeyAmp_append_str _ pre _ _
      (hasOccur_append_false _ _ _ h1 (by decide) (by decide)) (by decide)
  have s2 : subKeyEnd '&' "devid="
      (pre ++ "devpassword=XYZ&ssid=foo&sspassword=bar&other=1") =
      pre ++ "devpassword=XYZ&ssid=foo&sspassword=bar&other=1" :=
    subKeyEnd_append_str '&' _ pre _ _
      (hasOccur_append_false _ _ _ h1 (by decide) (by decide)) (by decide)
  have s3 : subKeyAmp "devpassword="
      (pre ++ "devpassword=XYZ&ssid=foo&sspassword=bar&other=1") =
      pre ++ "ssid=foo&sspassword=bar&other=1" :=
    subKeyAmp_append_str _ pre _ _
      (hasOccur_append_false _ _ _ h2 (by decide) (by decide)) (by decide)
  have s4 : subKeyEnd '$' "devpassword="
      (pre ++ "ssid=foo&sspassword=bar&other=1") =
      pre ++ "ssid=foo&sspassword=bar&other=1" :=
    subKeyEnd_append_str '$' _ pre _ _
      (hasOccur_append_false _ _ _ h2 (by decide) (by decide)) (by decide)
  have s5 : subKeyAmp "softname="
      (pre ++ "ssid=foo&sspassword=bar&other=1") =
      pre ++ "ssid=foo&sspassword=bar&other=1" :=
    subKeyAmp_append_str _ pre _ _
      (hasOccur_append_false _ _ _ h3 (by decide) (by decide)) (by decide)
  have s6 : subKeyEnd '&' "softname="
      (pre ++ "ssid=foo&sspassword=bar&other=1") =
      pre ++ "ssid=foo&sspassword=bar&other=1" :=
    subKeyEnd_append_str '&' _ pre _ _
      (hasOccur_append_false _ _ _ h3 (by decide) (by decide)) (by decide)
  have s7 : subKeyAmp "output="
      (pre ++ "ssid=foo&sspassword=bar&other=1") =
      pre ++ "ssid=foo&sspassword=bar&other=1" :=
    subKeyAmp_append_str _ pre _ _
      (hasOccur_append_false _ _ _ h4 (by decide) (by decide)) (by decide)
  have s8 : subKeyEnd '&' "output="
      (pre ++ "ssid=foo&sspassword=bar&other=1") =
      pre ++ "ssid=foo&sspassword=bar&other=1" :=
    subKeyEnd_append_str '&' _ pre _ _
      (hasOccur_append_false _ _ _ h4 (by decide) (by decide)) (by decide)
  have s9 : subKeyAmp "ssid="
      (pre ++ "ssid=foo&sspassword=bar&other=1") =
      pre ++ "sspassword=bar&other=1" :=
    subKeyAmp_append_str _ pre _ _
      (hasOccur_append_false _ _ _ h5 (by decide) (by decide)) (by decide)
  have s10 : subKeyEnd '&' "ssid="
      (pre ++ "sspassword=bar&other=1") =
      pre ++ "sspassword=bar&other=1" :=
    subKeyEnd_append_str '&' _ pre _ _
      (hasOccur_append_false _ _ _ h5 (by decide) (by decide)) (by decide)
  have s11 : subKeyAmp "sspassword="
      (pre ++ "sspassword=bar&other=1") =
      pre ++ "other=1" :=
    subKeyAmp_append_str _ pre _ _
      (hasOccur_append_false _ _ _ h6 (by decide) (by decide)) (by decide)
  have s12 : subKeyEnd '&' "sspassword="
      (pre ++ "other=1") =
      pre ++ "other=1" :=
    subKeyEnd_append_str '&' _ pre _ _
      (hasOccur_append_false _ _ _ h6 (by decide) (by decide)) (by decide)
  simp only [clean_URL_for_log]
  rw [s1, s2, s3, s4, s5, s6, s7, s8, s9, s10, s11, s12]

/-- Witness for C7's generalised conjunct at a concrete prefix. -/
theorem c7_witness :
    clean_URL_for_log
        ("https://www.screenscraper.fr/api2/jeuInfos.php?" ++
         "devid=ABC&devpassword=XYZ&ssid=foo&sspassword=bar&other=1") =
      "https://www.screenscraper.fr/api2/jeuInfos.php?" ++ "other=1" :=
  c7_clean_URL_redaction.2.2.2 "https://www.screenscraper.fr/api2/jeuInfos.php?"
    (by decide) (by decide) (by decide) (by decide) (by decide) (by decide)

/-- C8: asset extraction yields exactly one `AssetRecord` per media entry
whose provider type is in the static table and silently skips entries whose
type is absent, for every cached record whose media entries carry their
`type`, `url` and `format` keys. -/
theorem c8_asset_extraction_count :
    ∀ (jeu : JeuDic) (ms : List MediaDic) (gid : String),
      jeu.medias = some ms → jeu.id = some gid →
      (∀ m ∈ ms, m.type ≠ none ∧ m.url ≠ none ∧ m.format ≠ none) →
      ∃ l, retrieve_all_assets jeu = some l ∧
        l.length = (ms.filter (fun m => (m.type.bind asset_name_mapping).isSome)).length := by
  intro jeu ms gid hm hid h
  obtain ⟨l, hl, hlen⟩ := assetsLoop_count gid ms h
  exact ⟨l, by simp [retrieve_all_assets, hm, hid, hl], hlen⟩

/-- Witness for C8: one recognized plus one unrecognized media entry yield
exactly one asset record. -/
theorem c8_witness :
    (∃ l, retrieve_all_assets assetsJeu = some l ∧
      l.length =
        (assetsMedias.filter (fun m => (m.type.bind asset_name_mapping).isSome)).length) ∧
    (assetsMedias.filter (fun m => (m.type.bind asset_name_mapping).isSome)).length = 1 :=
  ⟨c8_asset_extraction_count assetsJeu assetsMedias "5" rfl rfl (by decide), rfl⟩

/-- C9: player-count resolution passes the upstream `joueurs` text through
unmodified when present and returns the default constant when the field is
absent. -/
theorem c9_nplayers_passthrough :
    ∀ jeu : JeuDic,
      (∀ t, jeu.joueurs = some { text := some t } → parse_meta_nplayers jeu = t) ∧
      (jeu.joueurs = none → parse_meta_nplayers jeu = DEFAULT_META_NPLAYERS) := by
  intro jeu
  constructor
  · intro t h
    simp [parse_meta_nplayers, h]
  · intro h
    simp [parse_meta_nplayers, h]

/-- Witness for C9: `"1-4"` comes back as `"1-4"`, and an absent field yields
the default. -/
theorem c9_witness :
    parse_meta_nplayers nplayersJeu = "1-4" ∧
    parse_meta_nplayers emptyJeu = DEFAULT_META_NPLAYERS :=
  ⟨(c9_nplayers_passthrough nplayersJeu).1 "1-4" rfl,
   (c9_nplayers_passthrough emptyJeu).2 rfl⟩

/-- C10 counterexample: called with a null ROM file reference,
`get_candidates` evaluates `rom_FN.getBase()` before any guard and raises
`AttributeError` (modelled by `none`) instead of returning the claimed
graceful null result with the descriptor unchanged. -/
theorem c10_counterexample :
    get_candidates false 3 resp404 none (some sonicFN) (some sonicChecksums)
      "Sega Mega Drive" 1 okStatusDic = none ∧
    (none : Option SearchResult) ≠ some ⟨none, okStatusDic, 0, none⟩ :=
  ⟨rfl, by simp⟩

/-- C10 amended: with a null checksums file reference (and a non-null ROM
file reference) `get_candidates` returns a null candidate result without any
HTTP request and with the status descriptor unchanged; the null-guard inside
`_search_candidates_jeuInfos` gives the same graceful null for either null
argument, but a null ROM file reference never reaches it because
`get_candidates` dereferences the ROM file reference first. -/
theorem c10_amended_null_guards :
    (∀ (thr : Nat) (resp : Nat → HttpResponse) (fn : FileName) (cks : Option Checksums)
       (plat : String) (splat : Nat) (st : StatusDic), st.status = true →
       get_candidates false thr resp (some fn) none cks plat splat st =
         some ⟨none, st, 0, none⟩) ∧
    (∀ (thr : Nat) (resp : Nat → HttpResponse) (rfn cfn : Option FileName)
       (cks : Option Checksums) (plat : String) (splat : Nat) (st : StatusDic),
       rfn = none ∨ cfn = none →
       search_candidates_jeuInfos thr resp rfn cfn cks plat splat st =
         some ⟨none, st, 0, none⟩) := by
  constructor
  · intro thr resp fn cks plat splat st hst
    simp [get_candidates, search_candidates_jeuInfos, hst]
  · intro thr resp rfn cfn cks plat splat st h
    rcases h with rfl | rfl
    · cases cfn <;> simp [search_candidates_jeuInfos]
    · cases rfn <;> simp [search_candidates_jeuInfos]

/-- Witness for C10 amended at a concrete null-checksums call. -/
theorem c10_amended_witness :
    get_candidates false 3 resp404 (some sonicFN) none (some sonicChecksums)
      "Sega Mega Drive" 1 okStatusDic = some ⟨none, okStatusDic, 0, none⟩ :=
  c10_amended_null_guards.1 3 resp404 sonicFN (some sonicChecksums)
    "Sega Mega Drive" 1 okStatusDic rfl
